import Mathlib

/-!
Verification of the computational core of the self-parking-car-evolution
project (src/lib/carGenetic.ts): the bit-to-number codec, the genome
decoder, the formula evaluator and the loss function.

JavaScript numbers are modelled as exact arithmetic: the decoding and
linear-combination pipeline works over the rationals, and the analytic
tail of the pipeline (sigmoid, thresholding, square root) over the reals.
A JavaScript throw is modelled by the Except monad.
-/

namespace CarGenetic

/-- A gene is a single binary digit, type Gene = 0 | 1 in the source. -/
abbrev Gene := Fin 2

/-- A genome is an ordered sequence of genes. -/
abbrev Genome := List Gene

-- Car has 16 distance sensors.
def CAR_SENSORS_NUM : ℕ := 16

def BIAS_UNITS : ℕ := 1

-- How many genes we need to encode each numeric parameter for the formulas.
def GENES_PER_NUMBER : ℕ := 8

def SIGN_GENE_INDEX : ℕ := 0

def EXPONENT_GENE_INDEX : ℕ := 1

def FRACTION_GENE_INDEX : ℕ := 4

-- Bias equals 2^(k-1) - 1, where k is the number of bits in the exponent.
def EXPONENT_BIAS : ℤ := 2 ^ (FRACTION_GENE_INDEX - EXPONENT_GENE_INDEX - 1) - 1

def ENGINE_FORMULA_GENES_NUM : ℕ := (CAR_SENSORS_NUM + BIAS_UNITS) * GENES_PER_NUMBER

def WHEELS_FORMULA_GENES_NUM : ℕ := (CAR_SENSORS_NUM + BIAS_UNITS) * GENES_PER_NUMBER

-- The length of the binary genome of the car.
def GENOME_LENGTH : ℕ := ENGINE_FORMULA_GENES_NUM + WHEELS_FORMULA_GENES_NUM

/-- Converts an array of genes (bits) to a number, most significant bit
first: the gene at index i weighs 2 ^ (length - i - 1).  The source walks
the array with reduce over (value, index) pairs; List.enum provides the
same pairs (index, value). -/
def binaryArrayToNumber (genes : List Gene) : ℕ :=
  genes.enum.foldl
    (fun result p => result + (p.2 : ℕ) * 2 ^ (genes.length - p.1 - 1)) 0

/-- Decodes one 8-gene block: bit 0 is the sign, bits 1 to 3 the biased
exponent, bits 4 to 7 the fraction; the value is
sign * fraction * 10 ^ (exponent - bias).  A block whose length is not
exactly GENES_PER_NUMBER throws.  Array slicing slice(a, b) is modelled
by drop a followed by take (b - a); indexing into the length-checked
array is modelled by getD with default 0 (undefined is falsy). -/
def decodeNumber (genes : List Gene) : Except String ℚ :=
  if genes.length ≠ GENES_PER_NUMBER then
    .error "Wrong number of genes in the number genome"
  else
    let sign : ℚ := if genes.getD SIGN_GENE_INDEX 0 = 1 then -1 else 1
    let exponentGenes : List Gene :=
      (genes.drop EXPONENT_GENE_INDEX).take (FRACTION_GENE_INDEX - EXPONENT_GENE_INDEX)
    let exponent : ℤ := (binaryArrayToNumber exponentGenes : ℤ) - EXPONENT_BIAS
    let fractionGenes : List Gene := genes.drop FRACTION_GENE_INDEX
    let fraction : ℚ := (binaryArrayToNumber fractionGenes : ℚ)
    .ok (sign * fraction * (10 : ℚ) ^ exponent)

/-- The loop body of decodeNumbers: repeatedly slice GENES_PER_NUMBER
genes off the front and decode them, collecting the results in order. -/
def decodeNumbersGo (genes : List Gene) : Except String (List ℚ) :=
  if h : genes = [] then
    .ok []
  else do
    let number ← decodeNumber (genes.take GENES_PER_NUMBER)
    let rest ← decodeNumbersGo (genes.drop GENES_PER_NUMBER)
    return number :: rest
termination_by genes.length
decreasing_by
  simp only [List.length_drop, GENES_PER_NUMBER]
  have hpos : 0 < genes.length := List.length_pos.mpr h
  omega

/-- Decodes a gene block into the list of numbers it encodes; a block
whose length is not a multiple of GENES_PER_NUMBER throws. -/
def decodeNumbers (genes : List Gene) : Except String (List ℚ) :=
  if genes.length % GENES_PER_NUMBER ≠ 0 then
    .error "Wrong number of genes in the numbers genome"
  else
    decodeNumbersGo genes

structure DecodedGenome where
  engineFormulaCoefficients : List ℚ
  wheelsFormulaCoefficients : List ℚ
deriving DecidableEq, Repr

/-- Splits the genome into the engine block (slice(0, E)) and the wheels
block (slice(E, E + W)) and decodes each block. -/
def decodeGenome (genome : Genome) : Except String DecodedGenome := do
  let engineGenes : List Gene := genome.take ENGINE_FORMULA_GENES_NUM
  let wheelsGenes : List Gene :=
    (genome.drop ENGINE_FORMULA_GENES_NUM).take
      (ENGINE_FORMULA_GENES_NUM + WHEELS_FORMULA_GENES_NUM - ENGINE_FORMULA_GENES_NUM)
  let engineFormulaCoefficients ← decodeNumbers engineGenes
  let wheelsFormulaCoefficients ← decodeNumbers wheelsGenes
  return ⟨engineFormulaCoefficients, wheelsFormulaCoefficients⟩

/-- The forEach accumulation of linearPolynomial: each coefficient with
index below the variable count is multiplied by its variable, the
remaining coefficient is added as is.  The source calls the second list
variables, a reserved word here, so it is named vars. -/
def linearPolynomialGo (coefficients vars : List ℚ) (coefficientIndex : ℕ) : ℚ :=
  match coefficients with
  | [] => 0
  | coefficient :: rest =>
      (if coefficientIndex < vars.length then
        coefficient * vars.getD coefficientIndex 0
      else
        coefficient)
      + linearPolynomialGo rest vars (coefficientIndex + 1)

/-- Linear combination of coefficients and variables with a trailing bias
coefficient; throws when the coefficient count is not the variable count
plus one. -/
def linearPolynomial (coefficients vars : List ℚ) : Except String ℚ :=
  if coefficients.length ≠ vars.length + 1 then
    .error "Incompatible number polynomial coefficients and variables"
  else
    .ok (linearPolynomialGo coefficients vars 0)

/-- The logistic squash 1 / (1 + E ** (-x)), with Math.E modelled as
Real.exp 1 and ** as the real power. -/
noncomputable def sigmoid (x : ℝ) : ℝ :=
  1 / (1 + Real.exp 1 ^ (-x))

/-- Maps a sigmoid value to a category: +1 above 0.5 + margin / 2, -1
below 0.5 - margin / 2, 0 inside the dead zone.  The source declares the
margin with default value 0.5; call sites here pass that default
explicitly. -/
noncomputable def sigmoidToCategorical (sigmoidValue : ℝ) (aroundZeroMargin : ℝ) : ℤ :=
  if sigmoidValue > 0.5 + aroundZeroMargin / 2 then 1
  else if sigmoidValue < 0.5 - aroundZeroMargin / 2 then -1
  else 0

/-- Engine formula: decode the genome, evaluate the engine coefficients
against the sensors, squash and categorise. -/
noncomputable def engineFormula (genome : Genome) (sensors : List ℚ) : Except String ℤ := do
  let decoded ← decodeGenome genome
  let rawResult ← linearPolynomial decoded.engineFormulaCoefficients sensors
  let normalizedResult := sigmoid (rawResult : ℝ)
  return sigmoidToCategorical normalizedResult (1 / 2)

/-- Wheels formula: decode the genome, evaluate the wheels coefficients
against the sensors, squash and categorise. -/
noncomputable def wheelsFormula (genome : Genome) (sensors : List ℚ) : Except String ℤ := do
  let decoded ← decodeGenome genome
  let rawResult ← linearPolynomial decoded.wheelsFormulaCoefficients sensors
  let normalizedResult := sigmoid (rawResult : ℝ)
  return sigmoidToCategorical normalizedResult (1 / 2)

/-- NumVec3 = [number, number, number]: an (x, y, z) coordinate. -/
abbrev NumVec3 := ℝ × ℝ × ℝ

/-- Four named corner points of a rectangle. -/
structure RectanglePoints where
  fl : NumVec3
  fr : NumVec3
  bl : NumVec3
  br : NumVec3

structure LossParams where
  wheelsPosition : RectanglePoints
  parkingLotCorners : RectanglePoints

/-- XZ distance between two points in space; the vertical Y distance is
not taken into account. -/
noncomputable def distance (fromPoint toPoint : NumVec3) : ℝ :=
  Real.sqrt ((fromPoint.1 - toPoint.1) ^ 2 + (fromPoint.2.2 - toPoint.2.2) ^ 2)

/-- Loss: the mean of the four cornerwise XZ distances between the wheels
and the parking lot corners. -/
noncomputable def loss (params : LossParams) : ℝ :=
  (distance params.wheelsPosition.fl params.parkingLotCorners.fl
    + distance params.wheelsPosition.fr params.parkingLotCorners.fr
    + distance params.wheelsPosition.br params.parkingLotCorners.br
    + distance params.wheelsPosition.bl params.parkingLotCorners.bl) / 4

/-- Replaces the y component of a point; used to state that the loss
never depends on the vertical component. -/
def updateY (p : NumVec3) (y : ℝ) : NumVec3 := (p.1, y, p.2.2)

/-! ## Supporting lemmas -/

lemma length_eight_destruct (l : List Gene) (h : l.length = 8) :
    ∃ b0 b1 b2 b3 b4 b5 b6 b7, l = [b0, b1, b2, b3, b4, b5, b6, b7] := by
  rcases l with _ | ⟨b0, _ | ⟨b1, _ | ⟨b2, _ | ⟨b3, _ | ⟨b4, _ | ⟨b5, _ | ⟨b6, _ | ⟨b7, rest⟩⟩⟩⟩⟩⟩⟩⟩ <;>
    simp only [List.length_nil, List.length_cons] at h <;> try omega
  have hr : rest = [] := List.eq_nil_of_length_eq_zero (by omega)
  subst hr
  exact ⟨b0, b1, b2, b3, b4, b5, b6, b7, rfl⟩

lemma binaryArrayToNumber_three (a b c : Gene) :
    binaryArrayToNumber [a, b, c] = 4 * (a : ℕ) + 2 * (b : ℕ) + (c : ℕ) := by
  simp [binaryArrayToNumber, List.enum, List.enumFrom]
  ring

lemma binaryArrayToNumber_four (a b c d : Gene) :
    binaryArrayToNumber [a, b, c, d] = 8 * (a : ℕ) + 4 * (b : ℕ) + 2 * (c : ℕ) + (d : ℕ) := by
  simp [binaryArrayToNumber, List.enum, List.enumFrom]
  ring

lemma decodeNumber_error_of_length (genes : List Gene) (h : genes.length ≠ 8) :
    decodeNumber genes = .error "Wrong number of genes in the number genome" := by
  rw [decodeNumber, if_pos]
  simpa [GENES_PER_NUMBER] using h

lemma decodeNumber_ok_of_length (genes : List Gene) (h : genes.length = 8) :
    ∃ q, decodeNumber genes = .ok q := by
  rw [decodeNumber, if_neg (by simp [GENES_PER_NUMBER, h])]
  exact ⟨_, rfl⟩

lemma decodeNumbersGo_nil : decodeNumbersGo [] = .ok [] := by
  unfold decodeNumbersGo
  rfl

lemma decodeNumbersGo_cons (genes : List Gene) (h : genes ≠ []) :
    decodeNumbersGo genes = do
      let number ← decodeNumber (genes.take GENES_PER_NUMBER)
      let rest ← decodeNumbersGo (genes.drop GENES_PER_NUMBER)
      return number :: rest := by
  rw [decodeNumbersGo]
  simp [h]

lemma decodeNumbersGo_spec :
    ∀ (n : ℕ) (genes : List Gene), genes.length = 8 * n →
      ∃ l, decodeNumbersGo genes = .ok l ∧ l.length = n ∧
        ∀ i, i < n → decodeNumber ((genes.drop (8 * i)).take 8) = .ok (l.getD i 0) := by
  intro n
  induction n with
  | zero =>
      intro genes h
      have hnil : genes = [] := List.eq_nil_of_length_eq_zero (by omega)
      subst hnil
      exact ⟨[], decodeNumbersGo_nil, rfl, by omega⟩
  | succ n ih =>
      intro genes h
      have hne : genes ≠ [] := by
        intro hnil
        subst hnil
        simp at h
      have htake : (genes.take 8).length = 8 := by
        simp only [List.length_take]
        omega
      obtain ⟨q, hq⟩ := decodeNumber_ok_of_length _ htake
      have hdrop : (genes.drop 8).length = 8 * n := by
        simp only [List.length_drop]
        omega
      obtain ⟨l, hl, hlen, hidx⟩ := ih (genes.drop 8) hdrop
      refine ⟨q :: l, ?_, by simp [hlen], ?_⟩
      · rw [decodeNumbersGo_cons genes hne]
        simp only [GENES_PER_NUMBER]
        rw [hq]
        show Except.bind _ _ = _
        simp only [Except.bind]
        rw [hl]
        rfl
      · intro i hi
        cases i with
        | zero =>
            simpa using hq
        | succ i =>
            have h8 : 8 * (i + 1) = 8 + 8 * i := by ring
            rw [h8, ← List.drop_drop, List.getD_cons_succ]
            exact hidx i (by omega)

lemma decodeNumbers_error_of_length (genes : List Gene) (h : genes.length % 8 ≠ 0) :
    decodeNumbers genes = .error "Wrong number of genes in the numbers genome" := by
  rw [decodeNumbers, if_pos]
  simpa [GENES_PER_NUMBER] using h

lemma decodeNumbers_spec (n : ℕ) (genes : List Gene) (h : genes.length = 8 * n) :
    ∃ l, decodeNumbers genes = .ok l ∧ l.length = n ∧
      ∀ i, i < n → decodeNumber ((genes.drop (8 * i)).take 8) = .ok (l.getD i 0) := by
  obtain ⟨l, hl, hlen, hidx⟩ := decodeNumbersGo_spec n genes h
  refine ⟨l, ?_, hlen, hidx⟩
  rw [decodeNumbers, if_neg (by simp [GENES_PER_NUMBER]; omega)]
  exact hl

lemma decodeNumbers_ok_of_mod (genes : List Gene) (h : genes.length % 8 = 0) :
    ∃ l, decodeNumbers genes = .ok l ∧ l.length = genes.length / 8 := by
  obtain ⟨l, hl, hlen, _⟩ := decodeNumbers_spec (genes.length / 8) genes (by omega)
  exact ⟨l, hl, hlen⟩

lemma decodeGenome_eq (genome : Genome) :
    decodeGenome genome =
      Except.bind (decodeNumbers (genome.take 136)) (fun e =>
        Except.bind (decodeNumbers ((genome.drop 136).take 136)) (fun w =>
          Except.ok ⟨e, w⟩)) := rfl

lemma engineFormula_eq (genome : Genome) (sensors : List ℚ) :
    engineFormula genome sensors =
      Except.bind (decodeGenome genome) (fun d =>
        Except.bind (linearPolynomial d.engineFormulaCoefficients sensors) (fun raw =>
          Except.ok (sigmoidToCategorical (sigmoid (raw : ℝ)) (1 / 2)))) := rfl

lemma wheelsFormula_eq (genome : Genome) (sensors : List ℚ) :
    wheelsFormula genome sensors =
      Except.bind (decodeGenome genome) (fun d =>
        Except.bind (linearPolynomial d.wheelsFormulaCoefficients sensors) (fun raw =>
          Except.ok (sigmoidToCategorical (sigmoid (raw : ℝ)) (1 / 2)))) := rfl

lemma decodeGenome_ok_272 (genome : Genome) (h : genome.length = 272) :
    ∃ e w, decodeGenome genome = .ok ⟨e, w⟩
      ∧ decodeNumbers (genome.take 136) = .ok e
      ∧ decodeNumbers ((genome.drop 136).take 136) = .ok w
      ∧ e.length = 17 ∧ w.length = 17
      ∧ (∀ i, i < 17 → decodeNumber (((genome.take 136).drop (8 * i)).take 8) = .ok (e.getD i 0))
      ∧ (∀ i, i < 17 → decodeNumber ((((genome.drop 136).take 136).drop (8 * i)).take 8) = .ok (w.getD i 0)) := by
  have hte : (genome.take 136).length = 8 * 17 := by
    simp only [List.length_take]
    omega
  have htw : ((genome.drop 136).take 136).length = 8 * 17 := by
    simp only [List.length_take, List.length_drop]
    omega
  obtain ⟨e, he, helen, heidx⟩ := decodeNumbers_spec 17 (genome.take 136) hte
  obtain ⟨w, hw, hwlen, hwidx⟩ := decodeNumbers_spec 17 ((genome.drop 136).take 136) htw
  refine ⟨e, w, ?_, he, hw, helen, hwlen, heidx, hwidx⟩
  rw [decodeGenome_eq, he]
  show Except.bind _ _ = _
  simp only [Except.bind]
  rw [hw]

lemma decodeGenome_error_of (genome : Genome)
    (h : genome.length < 272 ∧ genome.length % 8 ≠ 0) :
    decodeGenome genome = .error "Wrong number of genes in the numbers genome" := by
  obtain ⟨hlt, hmod⟩ := h
  rw [decodeGenome_eq]
  by_cases h136 : genome.length ≤ 136
  · have : (genome.take 136).length % 8 ≠ 0 := by
      simp only [List.length_take]
      omega
    rw [decodeNumbers_error_of_length _ this]
    rfl
  · have hte : (genome.take 136).length = 8 * 17 := by
      simp only [List.length_take]
      omega
    obtain ⟨e, he, _, _⟩ := decodeNumbers_spec 17 (genome.take 136) hte
    have hw : ((genome.drop 136).take 136).length % 8 ≠ 0 := by
      simp only [List.length_take, List.length_drop]
      omega
    rw [he]
    show Except.bind _ _ = _
    simp only [Except.bind]
    rw [decodeNumbers_error_of_length _ hw]

lemma decodeGenome_ok_of (genome : Genome)
    (h : 272 ≤ genome.length ∨ genome.length % 8 = 0) :
    ∃ d, decodeGenome genome = .ok d := by
  rw [decodeGenome_eq]
  have hte : (genome.take 136).length % 8 = 0 := by
    simp only [List.length_take]
    omega
  have htw : ((genome.drop 136).take 136).length % 8 = 0 := by
    simp only [List.length_take, List.length_drop]
    omega
  obtain ⟨e, he, _⟩ := decodeNumbers_ok_of_mod _ hte
  obtain ⟨w, hw, _⟩ := decodeNumbers_ok_of_mod _ htw
  rw [he]
  show ∃ d, Except.bind _ _ = _
  simp only [Except.bind]
  rw [hw]
  exact ⟨⟨e, w⟩, rfl⟩

lemma linearPolynomialGo_eq (vs : List ℚ) :
    ∀ (cs : List ℚ) (k : ℕ),
      linearPolynomialGo cs vs k =
        ∑ j ∈ Finset.range cs.length,
          (if k + j < vs.length then cs.getD j 0 * vs.getD (k + j) 0 else cs.getD j 0) := by
  intro cs
  induction cs with
  | nil =>
      intro k
      simp [linearPolynomialGo]
  | cons c rest ih =>
      intro k
      rw [linearPolynomialGo, List.length_cons, Finset.sum_range_succ']
      simp only [List.getD_cons_succ, List.getD_cons_zero]
      rw [ih (k + 1)]
      have hsum :
          ∑ j ∈ Finset.range rest.length,
            (if k + (j + 1) < vs.length then rest.getD j 0 * vs.getD (k + (j + 1)) 0
              else rest.getD j 0)
          = ∑ j ∈ Finset.range rest.length,
            (if k + 1 + j < vs.length then rest.getD j 0 * vs.getD (k + 1 + j) 0
              else rest.getD j 0) := by
        refine Finset.sum_congr rfl (fun j _ => ?_)
        have hj : k + (j + 1) = k + 1 + j := by omega
        rw [hj]
      rw [hsum, Nat.add_zero]
      exact add_comm _ _

lemma linearPolynomial_error_of (coefficients vs : List ℚ)
    (h : coefficients.length ≠ vs.length + 1) :
    linearPolynomial coefficients vs =
      .error "Incompatible number polynomial coefficients and variables" := by
  rw [linearPolynomial, if_pos h]

lemma linearPolynomial_eq_ok (coefficients vs : List ℚ)
    (h : coefficients.length = vs.length + 1) :
    linearPolynomial coefficients vs =
      .ok ((∑ i ∈ Finset.range vs.length, coefficients.getD i 0 * vs.getD i 0)
        + coefficients.getD vs.length 0) := by
  rw [linearPolynomial, if_neg (by omega)]
  congr 1
  rw [linearPolynomialGo_eq, h, Finset.sum_range_succ]
  congr 1
  · refine Finset.sum_congr rfl (fun i hi => ?_)
    rw [Nat.zero_add, if_pos (Finset.mem_range.mp hi)]
  · rw [Nat.zero_add, if_neg (by omega)]

lemma sigmoid_eq (x : ℝ) : sigmoid x = 1 / (1 + Real.exp (-x)) := by
  rw [sigmoid, Real.exp_one_rpow]

lemma sigmoidToCategorical_cases (v m : ℝ) :
    sigmoidToCategorical v m = -1 ∨ sigmoidToCategorical v m = 0
      ∨ sigmoidToCategorical v m = 1 := by
  rw [sigmoidToCategorical]
  split
  · exact Or.inr (Or.inr rfl)
  · split
    · exact Or.inl rfl
    · exact Or.inr (Or.inl rfl)

lemma bindOk {α β : Type} (a : α) (f : α → Except String β) :
    Except.bind (Except.ok a) f = f a := rfl

lemma bindError {α β : Type} (e : String) (f : α → Except String β) :
    Except.bind (Except.error e) f = Except.error e := rfl

/-! ## Claim theorems -/

/-- C2: for every sequence of exactly 8 genes, decodeNumber returns
sign * fraction * 10 ^ (exponent - 3), where the sign is +1 when gene 0
is 0 and -1 when it is 1, the exponent is bits 1 to 3 read as an
unsigned MSB-first integer and the fraction is bits 4 to 7 read as an
unsigned MSB-first integer; in particular [0,0,0,0,0,0,0,1] decodes to
0.001 and [1,1,1,1,1,1,1,1] decodes to -150000. -/
theorem decodeNumber_codec_spec :
    (∀ genes : List Gene, genes.length = 8 →
      decodeNumber genes = .ok (
        (if genes.getD 0 0 = 1 then (-1 : ℚ) else 1)
        * ((8 * (genes.getD 4 0 : ℕ) + 4 * (genes.getD 5 0 : ℕ)
            + 2 * (genes.getD 6 0 : ℕ) + (genes.getD 7 0 : ℕ) : ℕ) : ℚ)
        * (10 : ℚ) ^ (((4 * (genes.getD 1 0 : ℕ) + 2 * (genes.getD 2 0 : ℕ)
            + (genes.getD 3 0 : ℕ) : ℕ) : ℤ) - 3)))
    ∧ decodeNumber [0, 0, 0, 0, 0, 0, 0, 1] = .ok ((1 : ℚ) / 1000)
    ∧ decodeNumber [1, 1, 1, 1, 1, 1, 1, 1] = .ok (-150000 : ℚ) := by
  refine ⟨?_, ?_, ?_⟩
  · intro genes h
    obtain ⟨b0, b1, b2, b3, b4, b5, b6, b7, rfl⟩ := length_eight_destruct genes h
    unfold decodeNumber
    rw [if_neg (by simp [GENES_PER_NUMBER])]
    show Except.ok _ = _
    simp only [SIGN_GENE_INDEX, EXPONENT_GENE_INDEX, FRACTION_GENE_INDEX, EXPONENT_BIAS,
      List.getD_cons_zero, List.getD_cons_succ]
    norm_num [binaryArrayToNumber_three, binaryArrayToNumber_four]
  · norm_num [decodeNumber, binaryArrayToNumber, List.enum, List.enumFrom, GENES_PER_NUMBER,
      SIGN_GENE_INDEX, EXPONENT_GENE_INDEX, FRACTION_GENE_INDEX, EXPONENT_BIAS]
  · norm_num [decodeNumber, binaryArrayToNumber, List.enum, List.enumFrom, GENES_PER_NUMBER,
      SIGN_GENE_INDEX, EXPONENT_GENE_INDEX, FRACTION_GENE_INDEX, EXPONENT_BIAS]

theorem decodeNumber_codec_spec_witness :
    (([0, 1, 1, 0, 0, 1, 1, 1] : List Gene).length = 8)
    ∧ decodeNumber ([0, 1, 1, 0, 0, 1, 1, 1] : List Gene) = .ok (
        (if ([0, 1, 1, 0, 0, 1, 1, 1] : List Gene).getD 0 0 = 1 then (-1 : ℚ) else 1)
        * ((8 * (([0, 1, 1, 0, 0, 1, 1, 1] : List Gene).getD 4 0 : ℕ)
            + 4 * (([0, 1, 1, 0, 0, 1, 1, 1] : List Gene).getD 5 0 : ℕ)
            + 2 * (([0, 1, 1, 0, 0, 1, 1, 1] : List Gene).getD 6 0 : ℕ)
            + (([0, 1, 1, 0, 0, 1, 1, 1] : List Gene).getD 7 0 : ℕ) : ℕ) : ℚ)
        * (10 : ℚ) ^ (((4 * (([0, 1, 1, 0, 0, 1, 1, 1] : List Gene).getD 1 0 : ℕ)
            + 2 * (([0, 1, 1, 0, 0, 1, 1, 1] : List Gene).getD 2 0 : ℕ)
            + (([0, 1, 1, 0, 0, 1, 1, 1] : List Gene).getD 3 0 : ℕ) : ℕ) : ℤ) - 3)) :=
  ⟨rfl, decodeNumber_codec_spec.1 [0, 1, 1, 0, 0, 1, 1, 1] rfl⟩

/-- C5: with the default margin 0.5, the categorical mapping returns +1
above 0.75, -1 below 0.25 and 0 otherwise, the boundaries 0.75 and 0.25
and the center 0.5 included; in particular 0.76 maps to 1, 0.24 maps to
-1 and 0.6 maps to 0. -/
theorem sigmoidToCategorical_default_margin_spec :
    (∀ v : ℝ, sigmoidToCategorical v (1 / 2) =
      if v > 3 / 4 then 1 else if v < 1 / 4 then -1 else 0)
    ∧ sigmoidToCategorical 0.76 (1 / 2) = 1
    ∧ sigmoidToCategorical 0.24 (1 / 2) = -1
    ∧ sigmoidToCategorical 0.6 (1 / 2) = 0
    ∧ sigmoidToCategorical 0.75 (1 / 2) = 0
    ∧ sigmoidToCategorical 0.25 (1 / 2) = 0
    ∧ sigmoidToCategorical 0.5 (1 / 2) = 0 := by
  have h1 : (0.5 : ℝ) + 1 / 2 / 2 = 3 / 4 := by norm_num
  have h2 : (0.5 : ℝ) - 1 / 2 / 2 = 1 / 4 := by norm_num
  refine ⟨fun v => by rw [sigmoidToCategorical, h1, h2], ?_, ?_, ?_, ?_, ?_, ?_⟩
  all_goals rw [sigmoidToCategorical, h1, h2]; norm_num

/-- C7: decodeNumber errors exactly when its input length is not 8, and
decodeNumbers errors exactly when the block length is not a multiple of
8; in the error cases no result is produced. -/
theorem decode_length_error_spec :
    (∀ genes : List Gene, genes.length ≠ 8 →
      decodeNumber genes = .error "Wrong number of genes in the number genome")
    ∧ (∀ genes : List Gene, genes.length = 8 → ∃ q, decodeNumber genes = .ok q)
    ∧ (∀ genes : List Gene, genes.length % 8 ≠ 0 →
      decodeNumbers genes = .error "Wrong number of genes in the numbers genome")
    ∧ (∀ genes : List Gene, genes.length % 8 = 0 → ∃ l, decodeNumbers genes = .ok l) :=
  ⟨decodeNumber_error_of_length, decodeNumber_ok_of_length,
    decodeNumbers_error_of_length,
    fun genes h => ⟨(decodeNumbers_ok_of_mod genes h).choose,
      (decodeNumbers_ok_of_mod genes h).choose_spec.1⟩⟩

theorem decode_length_error_spec_witness :
    (([1] : List Gene).length ≠ 8
      ∧ decodeNumber ([1] : List Gene) = .error "Wrong number of genes in the number genome")
    ∧ (([1] : List Gene).length % 8 ≠ 0
      ∧ decodeNumbers ([1] : List Gene) = .error "Wrong number of genes in the numbers genome") :=
  ⟨⟨by decide, decode_length_error_spec.1 [1] (by decide)⟩,
    ⟨by decide, decode_length_error_spec.2.2.1 [1] (by decide)⟩⟩

/-- C1 counterexample: the empty genome has length 0, not 272, yet
decodeGenome returns a (degenerate) result with empty coefficient lists
instead of raising the documented error. -/
theorem decodeGenome_wrong_length_counterexample :
    ([] : Genome).length ≠ 272
    ∧ decodeGenome ([] : Genome) = .ok ⟨[], []⟩ := by
  have hnil : decodeNumbers ([] : List Gene) = .ok [] := by
    rw [decodeNumbers, if_neg (by simp), decodeNumbersGo_nil]
  refine ⟨by decide, ?_⟩
  rw [decodeGenome_eq]
  simp only [List.take_nil, List.drop_nil]
  rw [hnil]
  rfl

/-- C1 amended: decodeGenome raises the documented hard error exactly for
genomes whose length is below 272 and not a multiple of 8; for every
other length (any multiple of 8 below 272, and any length of at least
272) it returns a result without error, even though the length differs
from 272. -/
theorem decodeGenome_error_characterization :
    ∀ genome : Genome,
      (genome.length < 272 ∧ genome.length % 8 ≠ 0 →
        decodeGenome genome = .error "Wrong number of genes in the numbers genome")
      ∧ (272 ≤ genome.length ∨ genome.length % 8 = 0 →
        ∃ d, decodeGenome genome = .ok d) :=
  fun genome => ⟨decodeGenome_error_of genome, decodeGenome_ok_of genome⟩

theorem decodeGenome_error_characterization_witness :
    ((List.replicate 7 (0 : Gene)).length < 272 ∧ (List.replicate 7 (0 : Gene)).length % 8 ≠ 0)
    ∧ decodeGenome (List.replicate 7 (0 : Gene)) =
        .error "Wrong number of genes in the numbers genome" :=
  ⟨⟨by decide, by decide⟩,
    (decodeGenome_error_characterization (List.replicate 7 (0 : Gene))).1 ⟨by decide, by decide⟩⟩

/-- C3: every genome of exactly 272 genes decodes without error into 17
engine coefficients taken from the first 136 genes and 17 wheels
coefficients taken from the next 136 genes, each block being sliced into
consecutive 8-gene sub-blocks decoded in order. -/
theorem decodeGenome_fixed_length_spec :
    ∀ genome : Genome, genome.length = 272 →
      ∃ e w, decodeGenome genome = .ok ⟨e, w⟩
        ∧ e.length = 17 ∧ w.length = 17
        ∧ decodeNumbers (genome.take 136) = .ok e
        ∧ decodeNumbers ((genome.drop 136).take 136) = .ok w
        ∧ (∀ i, i < 17 →
            decodeNumber (((genome.take 136).drop (8 * i)).take 8) = .ok (e.getD i 0))
        ∧ (∀ i, i < 17 →
            decodeNumber ((((genome.drop 136).take 136).drop (8 * i)).take 8) = .ok (w.getD i 0)) := by
  intro genome h
  obtain ⟨e, w, hd, he, hw, hel, hwl, hei, hwi⟩ := decodeGenome_ok_272 genome h
  exact ⟨e, w, hd, hel, hwl, he, hw, hei, hwi⟩

theorem decodeGenome_fixed_length_spec_witness :
    (List.replicate 272 (0 : Gene)).length = 272
    ∧ ∃ e w, decodeGenome (List.replicate 272 (0 : Gene)) = .ok ⟨e, w⟩
        ∧ e.length = 17 ∧ w.length = 17
        ∧ decodeNumbers ((List.replicate 272 (0 : Gene)).take 136) = .ok e
        ∧ decodeNumbers (((List.replicate 272 (0 : Gene)).drop 136).take 136) = .ok w
        ∧ (∀ i, i < 17 →
            decodeNumber ((((List.replicate 272 (0 : Gene)).take 136).drop (8 * i)).take 8)
              = .ok (e.getD i 0))
        ∧ (∀ i, i < 17 →
            decodeNumber (((((List.replicate 272 (0 : Gene)).drop 136).take 136).drop (8 * i)).take 8)
              = .ok (w.getD i 0)) :=
  ⟨by rw [List.length_replicate], decodeGenome_fixed_length_spec (List.replicate 272 (0 : Gene))
    (by rw [List.length_replicate])⟩

/-- C4: under matching lengths the raw value of linearPolynomial is the
dot product of the first coefficients with the sensor values plus the
final coefficient as unconditional bias; the normalized value is the
standard sigmoid 1 / (1 + e^(-raw)); and engineFormula and wheelsFormula
return the categorical mapping of the normalized value of their
respective decoded coefficient block evaluated on the shared sensors. -/
theorem formula_evaluator_spec :
    (∀ coefficients vs : List ℚ, coefficients.length = vs.length + 1 →
      linearPolynomial coefficients vs =
        .ok ((∑ i ∈ Finset.range vs.length, coefficients.getD i 0 * vs.getD i 0)
          + coefficients.getD vs.length 0))
    ∧ (∀ x : ℝ, sigmoid x = 1 / (1 + Real.exp (-x)))
    ∧ (∀ (genome : Genome) (sensors : List ℚ) (d : DecodedGenome),
        decodeGenome genome = .ok d →
        (∀ raw : ℚ, linearPolynomial d.engineFormulaCoefficients sensors = .ok raw →
          engineFormula genome sensors =
            .ok (sigmoidToCategorical (sigmoid (raw : ℝ)) (1 / 2)))
        ∧ (∀ raw : ℚ, linearPolynomial d.wheelsFormulaCoefficients sensors = .ok raw →
          wheelsFormula genome sensors =
            .ok (sigmoidToCategorical (sigmoid (raw : ℝ)) (1 / 2)))) := by
  refine ⟨linearPolynomial_eq_ok, sigmoid_eq, ?_⟩
  intro genome sensors d hd
  constructor
  · intro raw hraw
    rw [engineFormula_eq, hd]
    simp only [bindOk]
    rw [hraw]
    simp only [bindOk]
  · intro raw hraw
    rw [wheelsFormula_eq, hd]
    simp only [bindOk]
    rw [hraw]
    simp only [bindOk]

theorem formula_evaluator_spec_witness :
    (([2, 5] : List ℚ).length = ([3] : List ℚ).length + 1)
    ∧ linearPolynomial [2, 5] [3] =
        .ok ((∑ i ∈ Finset.range ([3] : List ℚ).length,
          ([2, 5] : List ℚ).getD i 0 * ([3] : List ℚ).getD i 0)
          + ([2, 5] : List ℚ).getD ([3] : List ℚ).length 0) :=
  ⟨rfl, formula_evaluator_spec.1 [2, 5] [3] rfl⟩

/-- C8: when the coefficient count is not the sensor count plus one, the
formula evaluation raises a hard error, and the error propagates out of
engineFormula and wheelsFormula instead of being defaulted to a
category. -/
theorem linearPolynomial_mismatch_error_spec :
    (∀ coefficients vs : List ℚ, coefficients.length ≠ vs.length + 1 →
      linearPolynomial coefficients vs =
        .error "Incompatible number polynomial coefficients and variables")
    ∧ (∀ (genome : Genome) (sensors : List ℚ), genome.length = 272 → sensors.length ≠ 16 →
      engineFormula genome sensors =
        .error "Incompatible number polynomial coefficients and variables"
      ∧ wheelsFormula genome sensors =
        .error "Incompatible number polynomial coefficients and variables") := by
  refine ⟨linearPolynomial_error_of, ?_⟩
  intro genome sensors hg hs
  obtain ⟨e, w, hd, _, _, hel, hwl, _, _⟩ := decodeGenome_ok_272 genome hg
  constructor
  · rw [engineFormula_eq, hd]
    simp only [bindOk]
    rw [linearPolynomial_error_of e sensors (by omega)]
    rfl
  · rw [wheelsFormula_eq, hd]
    simp only [bindOk]
    rw [linearPolynomial_error_of w sensors (by omega)]
    rfl

theorem linearPolynomial_mismatch_error_spec_witness :
    (([] : List ℚ).length ≠ ([] : List ℚ).length + 1)
    ∧ linearPolynomial ([] : List ℚ) ([] : List ℚ) =
        .error "Incompatible number polynomial coefficients and variables" :=
  ⟨by decide, linearPolynomial_mismatch_error_spec.1 [] [] (by decide)⟩

/-- C9: for every genome of exactly 272 genes and sensor list of exactly
16 values, engineFormula and wheelsFormula never error and return a
category in {-1, 0, +1}. -/
theorem formulas_total_on_valid_inputs :
    ∀ (genome : Genome) (sensors : List ℚ),
      genome.length = 272 → sensors.length = 16 →
      (∃ r, engineFormula genome sensors = .ok r ∧ (r = -1 ∨ r = 0 ∨ r = 1))
      ∧ (∃ r, wheelsFormula genome sensors = .ok r ∧ (r = -1 ∨ r = 0 ∨ r = 1)) := by
  intro genome sensors hg hs
  obtain ⟨e, w, hd, _, _, hel, hwl, _, _⟩ := decodeGenome_ok_272 genome hg
  obtain ⟨rawE, hrawE⟩ : ∃ raw, linearPolynomial e sensors = .ok raw :=
    ⟨_, linearPolynomial_eq_ok e sensors (by omega)⟩
  obtain ⟨rawW, hrawW⟩ : ∃ raw, linearPolynomial w sensors = .ok raw :=
    ⟨_, linearPolynomial_eq_ok w sensors (by omega)⟩
  constructor
  · refine ⟨sigmoidToCategorical (sigmoid (rawE : ℝ)) (1 / 2), ?_, ?_⟩
    · rw [engineFormula_eq, hd]
      simp only [bindOk]
      rw [hrawE]
      simp only [bindOk]
    · exact sigmoidToCategorical_cases (sigmoid (rawE : ℝ)) (1 / 2)
  · refine ⟨sigmoidToCategorical (sigmoid (rawW : ℝ)) (1 / 2), ?_, ?_⟩
    · rw [wheelsFormula_eq, hd]
      simp only [bindOk]
      rw [hrawW]
      simp only [bindOk]
    · exact sigmoidToCategorical_cases (sigmoid (rawW : ℝ)) (1 / 2)

theorem formulas_total_on_valid_inputs_witness :
    ((List.replicate 272 (0 : Gene)).length = 272 ∧ (List.replicate 16 (0 : ℚ)).length = 16)
    ∧ ((∃ r, engineFormula (List.replicate 272 (0 : Gene)) (List.replicate 16 (0 : ℚ)) = .ok r
          ∧ (r = -1 ∨ r = 0 ∨ r = 1))
      ∧ (∃ r, wheelsFormula (List.replicate 272 (0 : Gene)) (List.replicate 16 (0 : ℚ)) = .ok r
          ∧ (r = -1 ∨ r = 0 ∨ r = 1))) :=
  ⟨⟨by rw [List.length_replicate], by rw [List.length_replicate]⟩,
    formulas_total_on_valid_inputs (List.replicate 272 (0 : Gene)) (List.replicate 16 (0 : ℚ))
      (by rw [List.length_replicate]) (by rw [List.length_replicate])⟩

/-- C10: engineFormula depends only on the first 136 genes and
wheelsFormula only on genes 136 to 271: two length-272 genomes agreeing
on the relevant block produce identical results on every sensor input. -/
theorem formula_block_noninterference :
    (∀ (g1 g2 : Genome) (sensors : List ℚ), g1.length = 272 → g2.length = 272 →
      g1.take 136 = g2.take 136 → engineFormula g1 sensors = engineFormula g2 sensors)
    ∧ (∀ (g1 g2 : Genome) (sensors : List ℚ), g1.length = 272 → g2.length = 272 →
      g1.drop 136 = g2.drop 136 → wheelsFormula g1 sensors = wheelsFormula g2 sensors) := by
  constructor
  · intro g1 g2 sensors h1 h2 hagree
    obtain ⟨e1, w1, hd1, he1, hw1, _, _, _, _⟩ := decodeGenome_ok_272 g1 h1
    obtain ⟨e2, w2, hd2, he2, hw2, _, _, _, _⟩ := decodeGenome_ok_272 g2 h2
    have he : e1 = e2 := by
      rw [hagree] at he1
      exact Except.ok.inj (he1.symm.trans he2)
    rw [engineFormula_eq, engineFormula_eq, hd1, hd2]
    simp only [bindOk]
    rw [he]
  · intro g1 g2 sensors h1 h2 hagree
    obtain ⟨e1, w1, hd1, he1, hw1, _, _, _, _⟩ := decodeGenome_ok_272 g1 h1
    obtain ⟨e2, w2, hd2, he2, hw2, _, _, _, _⟩ := decodeGenome_ok_272 g2 h2
    have hw : w1 = w2 := by
      rw [hagree] at hw1
      exact Except.ok.inj (hw1.symm.trans hw2)
    rw [wheelsFormula_eq, wheelsFormula_eq, hd1, hd2]
    simp only [bindOk]
    rw [hw]

theorem formula_block_noninterference_witness :
    ((List.replicate 272 (0 : Gene)).length = 272
      ∧ (List.replicate 136 (0 : Gene) ++ List.replicate 136 (1 : Gene)).length = 272
      ∧ (List.replicate 272 (0 : Gene)).take 136 =
          (List.replicate 136 (0 : Gene) ++ List.replicate 136 (1 : Gene)).take 136)
    ∧ engineFormula (List.replicate 272 (0 : Gene)) (List.replicate 16 (0 : ℚ))
        = engineFormula (List.replicate 136 (0 : Gene) ++ List.replicate 136 (1 : Gene))
            (List.replicate 16 (0 : ℚ)) :=
  ⟨⟨by rw [List.length_replicate],
      by rw [List.length_append, List.length_replicate, List.length_replicate],
      by decide⟩,
    formula_block_noninterference.1 (List.replicate 272 (0 : Gene))
      (List.replicate 136 (0 : Gene) ++ List.replicate 136 (1 : Gene))
      (List.replicate 16 (0 : ℚ)) (by rw [List.length_replicate])
      (by rw [List.length_append, List.length_replicate, List.length_replicate]) (by decide)⟩

/-- C6: the loss is the arithmetic mean of the four label-matched planar
XZ distances (the y components never affect the result); consequently the
loss of identical inputs is 0, the loss is always nonnegative, and
offsetting every wheel corner by (3, any y, 4) from its matching target
corner gives loss exactly 5. -/
theorem loss_mean_xz_distance_spec :
    (∀ params : LossParams,
      loss params =
        (Real.sqrt ((params.wheelsPosition.fl.1 - params.parkingLotCorners.fl.1) ^ 2
            + (params.wheelsPosition.fl.2.2 - params.parkingLotCorners.fl.2.2) ^ 2)
          + Real.sqrt ((params.wheelsPosition.fr.1 - params.parkingLotCorners.fr.1) ^ 2
            + (params.wheelsPosition.fr.2.2 - params.parkingLotCorners.fr.2.2) ^ 2)
          + Real.sqrt ((params.wheelsPosition.br.1 - params.parkingLotCorners.br.1) ^ 2
            + (params.wheelsPosition.br.2.2 - params.parkingLotCorners.br.2.2) ^ 2)
          + Real.sqrt ((params.wheelsPosition.bl.1 - params.parkingLotCorners.bl.1) ^ 2
            + (params.wheelsPosition.bl.2.2 - params.parkingLotCorners.bl.2.2) ^ 2)) / 4)
    ∧ (∀ (w t : RectanglePoints) (y1 y2 y3 y4 y5 y6 y7 y8 : ℝ),
      loss ⟨⟨updateY w.fl y1, updateY w.fr y2, updateY w.bl y3, updateY w.br y4⟩,
            ⟨updateY t.fl y5, updateY t.fr y6, updateY t.bl y7, updateY t.br y8⟩⟩
        = loss ⟨w, t⟩)
    ∧ (∀ r : RectanglePoints, loss ⟨r, r⟩ = 0)
    ∧ (∀ params : LossParams, 0 ≤ loss params)
    ∧ (∀ w t : RectanglePoints,
      w.fl.1 = t.fl.1 + 3 → w.fl.2.2 = t.fl.2.2 + 4 →
      w.fr.1 = t.fr.1 + 3 → w.fr.2.2 = t.fr.2.2 + 4 →
      w.br.1 = t.br.1 + 3 → w.br.2.2 = t.br.2.2 + 4 →
      w.bl.1 = t.bl.1 + 3 → w.bl.2.2 = t.bl.2.2 + 4 →
      loss ⟨w, t⟩ = 5) := by
  refine ⟨fun params => rfl, fun w t y1 y2 y3 y4 y5 y6 y7 y8 => rfl, ?_, ?_, ?_⟩
  · intro r
    simp [loss, distance]
  · intro params
    unfold loss distance
    positivity
  · intro w t h1 h2 h3 h4 h5 h6 h7 h8
    have key : ∀ a b : ℝ, Real.sqrt ((a + 3 - a) ^ 2 + (b + 4 - b) ^ 2) = 5 := by
      intro a b
      have h25 : (a + 3 - a) ^ 2 + (b + 4 - b) ^ 2 = 5 ^ 2 := by ring
      rw [h25, Real.sqrt_sq (by norm_num : (0 : ℝ) ≤ 5)]
    show (distance w.fl t.fl + distance w.fr t.fr + distance w.br t.br + distance w.bl t.bl) / 4 = 5
    unfold distance
    rw [h1, h2, h3, h4, h5, h6, h7, h8, key, key, key, key]
    norm_num

theorem loss_mean_xz_distance_spec_witness :
    (((3, 7, 4) : NumVec3).1 = ((0, 0, 0) : NumVec3).1 + 3
      ∧ ((3, 7, 4) : NumVec3).2.2 = ((0, 0, 0) : NumVec3).2.2 + 4)
    ∧ loss ⟨⟨(3, 7, 4), (4, 9, 4), (3, 0, 6), (4, -1, 6)⟩,
            ⟨(0, 0, 0), (1, 0, 0), (0, 0, 2), (1, 0, 2)⟩⟩ = 5 :=
  ⟨⟨by norm_num, by norm_num⟩,
    loss_mean_xz_distance_spec.2.2.2.2
      ⟨(3, 7, 4), (4, 9, 4), (3, 0, 6), (4, -1, 6)⟩
      ⟨(0, 0, 0), (1, 0, 0), (0, 0, 2), (1, 0, 2)⟩
      (by norm_num) (by norm_num) (by norm_num) (by norm_num)
      (by norm_num) (by norm_num) (by norm_num) (by norm_num)⟩

end CarGenetic
